import Mathlib

/-!
Verification of the session/call layer of the Huawei OceanStor Manila driver
(`Manila/Rocky/helper.py`).  The Python class `RestHelper` is shallowly
embedded: its mutable fields become an explicit `HelperState`, the network is
an oracle of `HttpOutcome`s, Python exceptions become `Except` values, and
each operation additionally returns the list of requests it issued.
-/

set_option autoImplicit false

namespace HuaweiRest

universe u

/-- Error part of a REST result envelope, i.e. `result['error']` with an
integer `code` and a text `description`. -/
structure ErrorInfo where
  code : Int
  description : String
  deriving Repr, DecidableEq

/-- Payload fields of a result envelope that the session layer itself reads
from `result['data']`.  Each field is optional because Python's `dict.get`
yields `None` when the key is absent. -/
structure LoginData where
  deviceid : Option String
  iBaseToken : Option String
  accountstate : Option String
  deriving Repr, DecidableEq

/-- A REST result envelope `{error: {...}, data: ...}`.  Only the payload
fields the session layer reads are modelled; for ordinary calls the payload
is carried through unchanged. -/
structure Envelope where
  error : ErrorInfo
  data : Option LoginData
  deriving Repr, DecidableEq

/-- Array-specific constants imported by helper.py from
`manila.share.drivers.huawei.constants` (a module outside this file's
source).  Their concrete values never influence the control flow proved
here, so they are kept as opaque parameters. -/
structure Consts where
  ERROR_CONNECT_TO_SERVER : Int
  ERROR_UNAUTHORIZED_TO_SERVER : Int
  RELOGIN_ERROR_CODE : List Int
  RELOGIN_ERROR_PASS : Int
  PWD_EXPIRED_OR_INITIAL : List String
  MAX_QUERY_COUNT : Nat

/-- Python exceptions that can escape the session layer's methods. -/
inductive PyExc where
  /-- `manila.exception.ShareBackendException`, carrying its message. -/
  | backend (msg : String)
  /-- `TypeError` from concatenating a string with `None` in `login`. -/
  | typeError
  /-- `ValueError` from `res.json()` on a body that is not JSON. -/
  | jsonError
  deriving Repr, DecidableEq

/-- Outcome of one HTTP request issued through `requests`: either the
library raised while sending, or a response arrived with a status code and
a body that either parses as a JSON envelope or does not. -/
inductive HttpOutcome where
  | exn
  | resp (status : Nat) (body : Option Envelope)
  deriving Repr, DecidableEq

/-- What `do_call` produces: a result envelope, or a raised JSON decode
error. -/
inductive DoCallResult where
  | envelope (r : Envelope)
  | jsonExn
  deriving Repr, DecidableEq

/-- The locally synthesized connect-failure envelope of `do_call`
(helper.py lines 104-105). -/
def connectEnvelope (c : Consts) : Envelope :=
  { error := { code := c.ERROR_CONNECT_TO_SERVER, description := "Connect server error" }
    data := none }

/-- Text of the `requests.HTTPError` raised by `raise_for_status`,
abstracted as a function of the status code. -/
def httpErrorText (status : Nat) : String :=
  toString status ++ " Error for url"

/-- `RestHelper.do_call` (helper.py lines 79-119), as a function of the
outcome of the underlying `requests` call: an exception while sending is
converted to the connect-error envelope; `res.raise_for_status()` raises
`requests.HTTPError` exactly for 4xx/5xx statuses, which is converted to an
envelope carrying the status code; otherwise `res.json()` is returned, and
a body that is not valid JSON raises out of `do_call`. -/
def do_call (c : Consts) (out : HttpOutcome) : DoCallResult :=
  match out with
  | .exn => .envelope (connectEnvelope c)
  | .resp status body =>
    if 400 ≤ status ∧ status < 600 then
      .envelope { error := { code := (status : Int), description := httpErrorText status }
                  data := none }
    else
      match body with
      | some r => .envelope r
      | none => .jsonExn

/-- The headers of the `requests.Session` object; only the `iBaseToken`
auth header matters to the session layer. -/
structure SessionHeaders where
  iBaseToken : Option String
  deriving Repr, DecidableEq

/-- The mutable state of a `RestHelper` instance: `self.url` and
`self.session` (represented by its headers). -/
structure HelperState where
  url : Option String
  session : Option SessionHeaders
  deriving Repr, DecidableEq

/-- State after `RestHelper.__init__` (lines 60-61): no URL, no session. -/
def initState : HelperState := { url := none, session := none }

/-- `RestHelper.init_http_head` (lines 71-77): clears the base URL and
installs a fresh session whose headers carry no auth token. -/
def init_http_head : HelperState :=
  { url := none, session := some { iBaseToken := none } }

/-- Python truthiness of `self.url`, as tested by `call` (line 218) and
`logout` (line 173): `None` and the empty string are falsy. -/
def urlTruthy (st : HelperState) : Bool :=
  match st.url with
  | none => false
  | some u => u != ""

/-- `self.session.headers.get('iBaseToken')`.  In every state reachable
through the class API, `session` is present whenever `url` is; `none` also
covers the initial no-session state. -/
def sessionToken (st : HelperState) : Option String :=
  st.session.bind fun h => h.iBaseToken

/-- A request issued on the wire, for tracing which network operations an
embedded method performed. -/
inductive Event where
  /-- The login POST of `login`, tagged with the endpoint it targeted. -/
  | loginReq (endpointUrl : String)
  /-- The session DELETE of `logout`. -/
  | logoutReq
  /-- The ordinary request of `call` (first attempt or retry). -/
  | callReq
  deriving Repr, DecidableEq

/-- `RestHelper.logout` (lines 171-175): when the base URL is truthy, issue
the session DELETE and pass the result to `_assert_result`, which raises
`ShareBackendException` on any non-zero code (lines 42-47). -/
def logout (c : Consts) (out : HttpOutcome) (st : HelperState) :
    Except PyExc Unit × HelperState × List Event :=
  if urlTruthy st then
    match do_call c out with
    | .jsonExn => (.error .jsonError, st, [.logoutReq])
    | .envelope r =>
      if r.error.code ≠ 0 then
        (.error (.backend "Logout session error."), st, [.logoutReq])
      else
        (.ok (), st, [.logoutReq])
  else
    (.ok (), st, [])

/-- Whether `result['data']['accountstate']` lies in
`constants.PWD_EXPIRED_OR_INITIAL` (line 157-158). -/
def accountExpired (c : Consts) (r : Envelope) : Bool :=
  match r.data.bind fun d => d.accountstate with
  | some a => c.PWD_EXPIRED_OR_INITIAL.contains a
  | none => false

/-- The helper state right after a successful login POST against endpoint
`ep` (lines 155-156): `self.url = item_url + deviceid` and the token header
set from the response. -/
def postLoginState (ep dv : String) (r : Envelope) : HelperState :=
  { url := some (ep ++ dv)
    session := some { iBaseToken := r.data.bind fun d => d.iBaseToken } }

/-- The endpoint loop of `RestHelper.login` (lines 136-169).  `resp` gives,
per endpoint, the outcome of the login POST issued through `do_call`;
`logoutOut` is the outcome consumed by the `logout` call on the
expired-password path.  Each iteration runs `init_http_head` and then sets
`self.url = item_url`, so a failing iteration leaves that URL behind. -/
def loginLoop (c : Consts) (resp : String → HttpOutcome) (logoutOut : HttpOutcome) :
    List String → HelperState → Except PyExc Unit × HelperState × List Event
  | [], st => (.error (.backend "All url login fail."), st, [])
  | ep :: rest, _st =>
    let st1 : HelperState := { url := some ep, session := some { iBaseToken := none } }
    match do_call c (resp ep) with
    | .jsonExn => (.error .jsonError, st1, [.loginReq ep])
    | .envelope r =>
      if r.error.code ≠ 0 then
        let next := loginLoop c resp logoutOut rest st1
        (next.1, next.2.1, .loginReq ep :: next.2.2)
      else
        match r.data.bind fun d => d.deviceid with
        | none => (.error .typeError, st1, [.loginReq ep])
        | some dv =>
          let st2 := postLoginState ep dv r
          if accountExpired c r then
            let lg := logout c logoutOut st2
            match lg.1 with
            | .error e => (.error e, lg.2.1, .loginReq ep :: lg.2.2)
            | .ok _ =>
              (.error (.backend "Password has expired or initial, please change the password.")
                , lg.2.1, .loginReq ep :: lg.2.2)
          else
            (.ok (), st2, [.loginReq ep])

/-- `RestHelper.login` (lines 134-169): iterate the configured endpoint
list; raise "All url login fail." when the list is exhausted. -/
def login (c : Consts) (resp : String → HttpOutcome) (logoutOut : HttpOutcome)
    (eps : List String) (st : HelperState) :
    Except PyExc Unit × HelperState × List Event :=
  loginLoop c resp logoutOut eps st

/-- Whether a login attempt returned normally, i.e. the boolean into which
`relogin` converts the result of its guarded `self.login()` calls. -/
def exceptOk (r : Except PyExc Unit) : Bool :=
  match r with
  | .ok _ => true
  | .error _ => false

/-- `RestHelper.relogin` (lines 177-214).  `lResp` and `lo` feed any
`login` performed inside (`lo` being the outcome for the expired-password
logout inside `login`); `ro` is the outcome for the `logout` that `relogin`
calls directly.  Exceptions from `login`/`logout` are caught: a failed
`login` yields `false`, a failed `logout` is only logged. -/
def relogin (c : Consts) (lResp : String → HttpOutcome) (lo ro : HttpOutcome)
    (eps : List String) (oldToken : Option String) (st : HelperState) :
    Bool × HelperState × List Event :=
  if st.url = none then
    let L := login c lResp lo eps st
    (exceptOk L.1, L.2.1, L.2.2)
  else if oldToken = sessionToken st then
    let lg := logout c ro st
    let L := login c lResp lo eps lg.2.1
    (exceptOk L.1, L.2.1, lg.2.2 ++ L.2.2)
  else
    (true, st, [])

/-- The per-call network oracle for `call`: the outcome of the first
attempt, the outcomes feeding a possible `relogin`, and the outcome of the
retry. -/
structure CallOracle where
  first : HttpOutcome
  loginResp : String → HttpOutcome
  loginLogoutOut : HttpOutcome
  reloginLogoutOut : HttpOutcome
  retry : HttpOutcome

/-- The locally synthesized unauthorized envelope of `call`
(lines 223-228). -/
def unauthorizedEnvelope (c : Consts) : Envelope :=
  { error := { code := c.ERROR_UNAUTHORIZED_TO_SERVER, description := "unauthorized." }
    data := none }

/-- The first, read-locked phase of `RestHelper.call` (lines 217-228): with
a truthy base URL, capture the current token and issue the request through
`do_call`; otherwise set `old_token = None` and synthesize the local
unauthorized envelope without issuing any request. -/
def callPhase1 (c : Consts) (o : CallOracle) (st : HelperState) :
    Except PyExc Envelope × Option String × List Event :=
  if urlTruthy st then
    match do_call c o.first with
    | .jsonExn => (.error .jsonError, sessionToken st, [.callReq])
    | .envelope r => (.ok r, sessionToken st, [.callReq])
  else
    (.ok (unauthorizedEnvelope c), none, [])

/-- Replace the `error.code` of an envelope, keeping everything else
(`result['error']['code'] = 0`, line 240). -/
def setCode (r : Envelope) (n : Int) : Envelope :=
  { r with error := { r.error with code := n } }

/-- `RestHelper.call` (lines 216-247): first attempt (or local unauthorized
envelope); if the resulting code is in `RELOGIN_ERROR_CODE`, one `relogin`
under the write lock, and on its success one retry whose
`RELOGIN_ERROR_PASS` code is normalized to `0`; on relogin failure the
original envelope is returned. -/
def call (c : Consts) (eps : List String) (o : CallOracle) (st : HelperState) :
    Except PyExc Envelope × HelperState × List Event :=
  let p := callPhase1 c o st
  match p.1 with
  | .error e => (.error e, st, p.2.2)
  | .ok r =>
    if r.error.code ∈ c.RELOGIN_ERROR_CODE then
      let rr := relogin c o.loginResp o.loginLogoutOut o.reloginLogoutOut eps p.2.1 st
      if rr.1 then
        match do_call c o.retry with
        | .jsonExn => (.error .jsonError, rr.2.1, p.2.2 ++ rr.2.2 ++ [.callReq])
        | .envelope r2 =>
          if r2.error.code = c.RELOGIN_ERROR_PASS then
            (.ok (setCode r2 0), rr.2.1, p.2.2 ++ rr.2.2 ++ [.callReq])
          else if r2.error.code = 0 then
            (.ok r2, rr.2.1, p.2.2 ++ rr.2.2 ++ [.callReq])
          else
            (.ok r2, rr.2.1, p.2.2 ++ rr.2.2 ++ [.callReq])
      else
        (.ok r, rr.2.1, p.2.2 ++ rr.2.2)
    else
      (.ok r, st, p.2.2)

/-- The loop of `RestHelper._get_info_by_range` (lines 249-261),
instrumented with the fetched windows `(range_start, range_end, page)`.
`fuel` bounds the iterations of the source's unbounded `while True`;
`none` means the loop did not finish within `fuel` iterations. -/
def pagerLoop {α : Type u} (pageSize : Nat) (func : Nat → Nat → List α) :
    Nat → Nat → Option (List (Nat × Nat × List α))
  | 0, _ => none
  | fuel + 1, start =>
    let fin := start + pageSize
    let info := func start fin
    if info.length < pageSize then
      some [(start, fin, info)]
    else
      match pagerLoop pageSize func fuel (start + pageSize) with
      | none => none
      | some rest => some ((start, fin, info) :: rest)

/-- `RestHelper._get_info_by_range` (lines 249-261): the concatenation of
the pages fetched by `pagerLoop` with page size `MAX_QUERY_COUNT`. -/
def get_info_by_range {α : Type u} (c : Consts) (func : Nat → Nat → List α) (fuel : Nat) :
    Option (List α) :=
  (pagerLoop c.MAX_QUERY_COUNT func fuel 0).map fun pages =>
    (pages.map fun p => p.2.2).flatten

/-- A page-fetch function backed by a concrete dataset: the window `[s, e)`
of the list, as a range-filtered REST list query returns it. -/
def pageFuncOf {α : Type u} (d : List α) : Nat → Nat → List α :=
  fun s e => (d.drop s).take (e - s)

/-- The spec's Session invariant: base URL and auth token are either both
present or both absent. -/
def sessionInvariant (st : HelperState) : Prop :=
  st.url.isSome = (sessionToken st).isSome

instance (st : HelperState) : Decidable (sessionInvariant st) :=
  inferInstanceAs (Decidable (_ = _))

/-- A `do_call` result that is an envelope with a non-zero code, i.e. a
failed login attempt that does not raise. -/
def isFailEnvelope : DoCallResult → Prop
  | .envelope r => r.error.code ≠ 0
  | .jsonExn => False

instance : DecidablePred isFailEnvelope := by
  intro r
  cases r with
  | envelope r => exact inferInstanceAs (Decidable (r.error.code ≠ 0))
  | jsonExn => exact inferInstanceAs (Decidable False)

/-- The helper state left behind by a sequence of failing login attempts:
each iteration overwrites it with a fresh session and that iteration's
endpoint as URL. -/
def failState : List String → HelperState → HelperState
  | [], st => st
  | ep :: rest, _ =>
    failState rest { url := some ep, session := some { iBaseToken := none } }

/-- Sample constant values used to instantiate witnesses; all theorems hold
for arbitrary `Consts`. -/
def cSample : Consts :=
  { ERROR_CONNECT_TO_SERVER := -403
    ERROR_UNAUTHORIZED_TO_SERVER := -401
    RELOGIN_ERROR_CODE := [-401, 4011]
    RELOGIN_ERROR_PASS := 50150007
    PWD_EXPIRED_OR_INITIAL := ["3", "4"]
    MAX_QUERY_COUNT := 100 }

/-- A sample success envelope with no payload. -/
def okEnvSample : Envelope := { error := { code := 0, description := "0" }, data := none }

/-- A sample failure envelope with a generic non-zero code. -/
def failEnvSample : Envelope := { error := { code := 1, description := "fail" }, data := none }

/-- A sample envelope whose code lies in `cSample.RELOGIN_ERROR_CODE`. -/
def reloginErrEnvSample : Envelope :=
  { error := { code := -401, description := "auth" }, data := none }

/-- A sample envelope whose code equals `cSample.RELOGIN_ERROR_PASS`. -/
def passEnvSample : Envelope :=
  { error := { code := 50150007, description := "pass" }, data := none }

/-- A sample successful login response carrying device id, token and a
healthy account state. -/
def loginOkEnvSample : Envelope :=
  { error := { code := 0, description := "0" }
    data := some { deviceid := some "/dev1", iBaseToken := some "tok2"
                   accountstate := some "1" } }

/-- A sample successful login response whose account state lies in
`cSample.PWD_EXPIRED_OR_INITIAL`. -/
def loginExpiredEnvSample : Envelope :=
  { error := { code := 0, description := "0" }
    data := some { deviceid := some "/dev1", iBaseToken := some "tok2"
                   accountstate := some "3" } }

/-- A sample logged-in helper state. -/
def stSample : HelperState :=
  { url := some "https://a/dev0", session := some { iBaseToken := some "tok1" } }

/-- A sample call oracle: first attempt hits a relogin-required code,
relogin's login succeeds, the retry succeeds. -/
def oracleSample : CallOracle :=
  { first := .resp 200 (some reloginErrEnvSample)
    loginResp := fun _ => .resp 200 (some loginOkEnvSample)
    loginLogoutOut := .resp 200 (some okEnvSample)
    reloginLogoutOut := .resp 200 (some okEnvSample)
    retry := .resp 200 (some okEnvSample) }

theorem logout_state_eq (c : Consts) (out : HttpOutcome) (st : HelperState) :
    (logout c out st).2.1 = st := by
  unfold logout
  split
  · cases h : do_call c out with
    | jsonExn => rfl
    | envelope r =>
      by_cases h0 : r.error.code ≠ 0 <;> simp [h0]
  · rfl

theorem callReq_not_mem_logout (c : Consts) (out : HttpOutcome) (st : HelperState) :
    Event.callReq ∉ (logout c out st).2.2 := by
  unfold logout
  split
  · cases h : do_call c out with
    | jsonExn => simp
    | envelope r =>
      by_cases h0 : r.error.code ≠ 0 <;> simp [h0]
  · simp

theorem callReq_not_mem_loginLoop (c : Consts) (resp : String → HttpOutcome)
    (lo : HttpOutcome) :
    ∀ (eps : List String) (st : HelperState),
      Event.callReq ∉ (loginLoop c resp lo eps st).2.2 := by
  intro eps
  induction eps with
  | nil => intro st; simp [loginLoop]
  | cons ep rest ih =>
    intro st
    simp only [loginLoop]
    cases h : do_call c (resp ep) with
    | jsonExn => simp
    | envelope r =>
      by_cases h0 : r.error.code ≠ 0
      · simp only [if_pos h0]
        simpa using ih _
      · simp only [if_neg h0]
        cases hd : r.data.bind fun d => d.deviceid with
        | none => simp
        | some dv =>
          simp only []
          by_cases hex : accountExpired c r = true
          · simp only [hex, if_true]
            cases hl : (logout c lo (postLoginState ep dv r)).1 with
            | error e => simpa using callReq_not_mem_logout c lo (postLoginState ep dv r)
            | ok u => simpa using callReq_not_mem_logout c lo (postLoginState ep dv r)
          · simp [hex]

theorem callReq_not_mem_relogin (c : Consts) (lResp : String → HttpOutcome)
    (lo ro : HttpOutcome) (eps : List String) (oldToken : Option String)
    (st : HelperState) :
    Event.callReq ∉ (relogin c lResp lo ro eps oldToken st).2.2 := by
  unfold relogin
  split
  · exact callReq_not_mem_loginLoop c lResp lo eps st
  · split
    · intro hmem
      rcases List.mem_append.mp hmem with h | h
      · exact callReq_not_mem_logout c ro st h
      · exact callReq_not_mem_loginLoop c lResp lo eps _ h
    · simp

theorem loginLoop_all_fail (c : Consts) (resp : String → HttpOutcome) (lo : HttpOutcome) :
    ∀ (eps : List String) (st : HelperState),
      (∀ e ∈ eps, isFailEnvelope (do_call c (resp e))) →
      loginLoop c resp lo eps st =
        (.error (.backend "All url login fail."), failState eps st,
         eps.map Event.loginReq) := by
  intro eps
  induction eps with
  | nil => intro st _; rfl
  | cons ep rest ih =>
    intro st h
    have hep := h ep (List.mem_cons_self ep rest)
    cases hr : do_call c (resp ep) with
    | jsonExn => rw [hr] at hep; exact absurd hep (by simp [isFailEnvelope])
    | envelope r =>
      rw [hr] at hep
      have h0 : r.error.code ≠ 0 := hep
      simp only [loginLoop, hr, if_pos h0]
      rw [ih _ fun e he => h e (List.mem_cons_of_mem _ he)]
      rfl

theorem loginLoop_skip_failures (c : Consts) (resp : String → HttpOutcome) (lo : HttpOutcome) :
    ∀ (pre eps : List String) (st : HelperState),
      (∀ e ∈ pre, isFailEnvelope (do_call c (resp e))) →
      loginLoop c resp lo (pre ++ eps) st =
        ((loginLoop c resp lo eps (failState pre st)).1,
         (loginLoop c resp lo eps (failState pre st)).2.1,
         pre.map Event.loginReq ++ (loginLoop c resp lo eps (failState pre st)).2.2) := by
  intro pre
  induction pre with
  | nil => intro eps st _; rfl
  | cons ep rest ih =>
    intro eps st h
    have hep := h ep (List.mem_cons_self ep rest)
    cases hr : do_call c (resp ep) with
    | jsonExn => rw [hr] at hep; exact absurd hep (by simp [isFailEnvelope])
    | envelope r =>
      rw [hr] at hep
      have h0 : r.error.code ≠ 0 := hep
      simp only [List.cons_append, loginLoop, hr, if_pos h0, List.append_eq]
      rw [ih eps _ fun e he => h e (List.mem_cons_of_mem _ he)]
      rfl

theorem loginLoop_success (c : Consts) (resp : String → HttpOutcome) (lo : HttpOutcome)
    (ep : String) (rest : List String) (st : HelperState) (r : Envelope) (dv : String)
    (hr : do_call c (resp ep) = .envelope r) (h0 : r.error.code = 0)
    (hd : (r.data.bind fun d => d.deviceid) = some dv)
    (hex : accountExpired c r = false) :
    loginLoop c resp lo (ep :: rest) st =
      (.ok (), postLoginState ep dv r, [Event.loginReq ep]) := by
  simp only [loginLoop, hr, h0, if_neg (show ¬(0 : Int) ≠ 0 from by simp), hd, hex]
  simp

theorem loginLoop_expired (c : Consts) (resp : String → HttpOutcome) (lo : HttpOutcome)
    (ep : String) (rest : List String) (st : HelperState) (r : Envelope) (dv : String)
    (hr : do_call c (resp ep) = .envelope r) (h0 : r.error.code = 0)
    (hd : (r.data.bind fun d => d.deviceid) = some dv)
    (hex : accountExpired c r = true) :
    (∃ e, (loginLoop c resp lo (ep :: rest) st).1 = .error e) ∧
    (loginLoop c resp lo (ep :: rest) st).2.2 =
      Event.loginReq ep :: (logout c lo (postLoginState ep dv r)).2.2 := by
  simp only [loginLoop, hr, h0, if_neg (show ¬(0 : Int) ≠ 0 from by simp), hd, hex, if_true]
  cases hl : (logout c lo (postLoginState ep dv r)).1 with
  | error e => simp only [hl]; exact ⟨⟨e, rfl⟩, trivial⟩
  | ok u =>
    simp only [hl]
    exact ⟨⟨.backend "Password has expired or initial, please change the password.", rfl⟩, trivial⟩

theorem failState_url (eps : List String) (st : HelperState) (h : eps ≠ []) :
    (failState eps st).url = eps.getLast? ∧ sessionToken (failState eps st) = none := by
  induction eps generalizing st with
  | nil => exact absurd rfl h
  | cons ep rest ih =>
    cases rest with
    | nil => exact ⟨rfl, rfl⟩
    | cons b l =>
      rw [show failState (ep :: b :: l) st =
            failState (b :: l) { url := some ep, session := some { iBaseToken := none } } from rfl,
          List.getLast?_cons_cons]
      exact ih _ (by simp)

theorem pagerLoop_succ {α : Type u} (pageSize : Nat) (func : Nat → Nat → List α)
    (fuel start : Nat) :
    pagerLoop pageSize func (fuel + 1) start =
      if (func start (start + pageSize)).length < pageSize then
        some [(start, start + pageSize, func start (start + pageSize))]
      else
        match pagerLoop pageSize func fuel (start + pageSize) with
        | none => none
        | some rest => some ((start, start + pageSize, func start (start + pageSize)) :: rest) :=
  rfl

/-- C2: `relogin(oldToken)` is a three-way branch: no base URL means a full
login; a still-matching token means logout-then-login with any logout
failure tolerated and a login failure failing the attempt; a changed token
means success with no network work.  The returned boolean reflects the
internal login's outcome; exceptions of login/logout are converted into it
rather than propagated. -/
theorem relogin_branches (c : Consts) (lResp : String → HttpOutcome) (lo ro : HttpOutcome)
    (eps : List String) (oldToken : Option String) (st : HelperState) :
    (st.url = none →
      relogin c lResp lo ro eps oldToken st =
        (exceptOk (login c lResp lo eps st).1, (login c lResp lo eps st).2.1,
         (login c lResp lo eps st).2.2)) ∧
    (st.url ≠ none → oldToken = sessionToken st →
      relogin c lResp lo ro eps oldToken st =
        (exceptOk (login c lResp lo eps st).1, (login c lResp lo eps st).2.1,
         (logout c ro st).2.2 ++ (login c lResp lo eps st).2.2)) ∧
    (st.url ≠ none → oldToken ≠ sessionToken st →
      relogin c lResp lo ro eps oldToken st = (true, st, [])) := by
  refine ⟨?_, ?_, ?_⟩
  · intro h
    simp [relogin, h]
  · intro h ht
    simp only [relogin, if_neg h, if_pos ht]
    rw [logout_state_eq]
  · intro h ht
    simp [relogin, if_neg h, if_neg ht]

/-- Witness for `relogin_branches`: with no base URL and a succeeding login
endpoint, relogin performs the full login and reports success. -/
theorem relogin_branches_witness :
    (initState.url = none) ∧
    relogin cSample (fun _ => .resp 200 (some loginOkEnvSample)) (.resp 200 (some okEnvSample))
        (.resp 200 (some okEnvSample)) ["https://a"] none initState =
      (exceptOk (login cSample (fun _ => .resp 200 (some loginOkEnvSample))
          (.resp 200 (some okEnvSample)) ["https://a"] initState).1,
       (login cSample (fun _ => .resp 200 (some loginOkEnvSample))
          (.resp 200 (some okEnvSample)) ["https://a"] initState).2.1,
       (login cSample (fun _ => .resp 200 (some loginOkEnvSample))
          (.resp 200 (some okEnvSample)) ["https://a"] initState).2.2) :=
  ⟨rfl,
   (relogin_branches cSample (fun _ => .resp 200 (some loginOkEnvSample))
      (.resp 200 (some okEnvSample)) (.resp 200 (some okEnvSample))
      ["https://a"] none initState).1 rfl⟩

/-- C4 counterexample: with a base URL set and a session-delete result with
a non-zero code, `logout` raises `ShareBackendException` (through
`_assert_result`) instead of tolerating the failure. -/
theorem logout_nonzero_code_raises :
    (logout cSample (.resp 200 (some failEnvSample)) stSample).1 =
      .error (.backend "Logout session error.") := by
  rfl

/-- C4 amended: `logout`, when a base URL is set, issues the session-delete
request and passes the result to `_assert_result`: a non-zero code raises
`ShareBackendException` (the failure is escalated to the caller — tolerance
is implemented by `relogin` catching it), code 0 returns normally, and the
session state is unchanged either way. -/
theorem logout_asserts_result (c : Consts) (out : HttpOutcome) (st : HelperState) (r : Envelope)
    (hurl : urlTruthy st = true) (hr : do_call c out = .envelope r) :
    (logout c out st).2.2 = [Event.logoutReq] ∧
    (r.error.code ≠ 0 → (logout c out st).1 = .error (.backend "Logout session error.")) ∧
    (r.error.code = 0 → (logout c out st).1 = .ok ()) ∧
    (logout c out st).2.1 = st := by
  refine ⟨?_, ?_, ?_, logout_state_eq c out st⟩
  · by_cases h0 : r.error.code ≠ 0 <;> simp [logout, hurl, hr, h0]
  · intro h0; simp [logout, hurl, hr, h0]
  · intro h0; simp [logout, hurl, hr, h0]

/-- Witness for `logout_asserts_result` at a concrete state and result. -/
theorem logout_asserts_result_witness :
    (urlTruthy stSample = true) ∧
    (do_call cSample (.resp 200 (some failEnvSample)) = .envelope failEnvSample) ∧
    ((logout cSample (.resp 200 (some failEnvSample)) stSample).2.2 = [Event.logoutReq] ∧
     (failEnvSample.error.code ≠ 0 →
       (logout cSample (.resp 200 (some failEnvSample)) stSample).1 =
         .error (.backend "Logout session error.")) ∧
     (failEnvSample.error.code = 0 →
       (logout cSample (.resp 200 (some failEnvSample)) stSample).1 = .ok ()) ∧
     (logout cSample (.resp 200 (some failEnvSample)) stSample).2.1 = stSample) :=
  ⟨rfl, rfl, logout_asserts_result cSample (.resp 200 (some failEnvSample)) stSample
      failEnvSample rfl rfl⟩

/-- C7: while the Session has no (truthy) base URL, the first phase of
`call` produces the locally synthesized unauthorized envelope, carrying the
reserved unauthorized code, and issues no request at all. -/
theorem call_no_url_unauthorized (c : Consts) (o : CallOracle) (st : HelperState)
    (h : urlTruthy st = false) :
    callPhase1 c o st = (.ok (unauthorizedEnvelope c), none, []) ∧
    (unauthorizedEnvelope c).error.code = c.ERROR_UNAUTHORIZED_TO_SERVER := by
  constructor
  · simp [callPhase1, h]
  · rfl

/-- Witness for `call_no_url_unauthorized` on the initial state. -/
theorem call_no_url_unauthorized_witness :
    (urlTruthy initState = false) ∧
    (callPhase1 cSample oracleSample initState =
      (.ok (unauthorizedEnvelope cSample), none, []) ∧
     (unauthorizedEnvelope cSample).error.code = cSample.ERROR_UNAUTHORIZED_TO_SERVER) :=
  ⟨rfl, call_no_url_unauthorized cSample oracleSample initState rfl⟩

/-- C8 counterexample: a 304 response — a non-2xx HTTP status — is not
converted into an error envelope carrying the status code; `do_call`
proceeds to parse the body and returns it as-is. -/
theorem do_call_304_not_converted :
    do_call cSample (.resp 304 (some okEnvSample)) = .envelope okEnvSample ∧
    okEnvSample.error.code ≠ 304 := by
  exact ⟨rfl, by decide⟩

/-- C8 amended: an exception while issuing the HTTP request is converted to
the connect-failure envelope; a 4xx/5xx status (the statuses for which
`raise_for_status` raises) is converted into an error envelope whose code
is the HTTP status and whose description is the HTTP error text; and a
transport failure on the first attempt of `call` yields the connect-failure
envelope rather than raising, so no transport-type exception escapes
`call`. -/
theorem do_call_transport_conversion (c : Consts) (s : Nat) (b : Option Envelope)
    (eps : List String) (o : CallOracle) (st : HelperState)
    (h4 : 400 ≤ s) (h6 : s < 600)
    (hurl : urlTruthy st = true) (hfirst : o.first = .exn)
    (hnr : c.ERROR_CONNECT_TO_SERVER ∉ c.RELOGIN_ERROR_CODE) :
    do_call c .exn = .envelope (connectEnvelope c) ∧
    (connectEnvelope c).error.code = c.ERROR_CONNECT_TO_SERVER ∧
    do_call c (.resp s b) =
      .envelope { error := { code := (s : Int), description := httpErrorText s }
                  data := none } ∧
    (call c eps o st).1 = .ok (connectEnvelope c) := by
  refine ⟨rfl, rfl, ?_, ?_⟩
  · simp only [do_call, if_pos (And.intro h4 h6)]
  · have hp : callPhase1 c o st = (.ok (connectEnvelope c), sessionToken st, [.callReq]) := by
      simp [callPhase1, hurl, hfirst, do_call]
    simp only [call, hp]
    rw [if_neg (show ¬(connectEnvelope c).error.code ∈ c.RELOGIN_ERROR_CODE from hnr)]

/-- Witness for `do_call_transport_conversion` at status 404 and a concrete
logged-in state. -/
theorem do_call_transport_conversion_witness :
    (400 ≤ 404 ∧ 404 < 600 ∧ urlTruthy stSample = true ∧
      cSample.ERROR_CONNECT_TO_SERVER ∉ cSample.RELOGIN_ERROR_CODE) ∧
    (do_call cSample .exn = .envelope (connectEnvelope cSample) ∧
     (connectEnvelope cSample).error.code = cSample.ERROR_CONNECT_TO_SERVER ∧
     do_call cSample (.resp 404 (some okEnvSample)) =
       .envelope { error := { code := (404 : Int), description := httpErrorText 404 }
                   data := none } ∧
     (call cSample ["https://a"]
        { oracleSample with first := .exn } stSample).1 = .ok (connectEnvelope cSample)) :=
  ⟨by decide,
   do_call_transport_conversion cSample 404 (some okEnvSample) ["https://a"]
     { oracleSample with first := .exn } stSample (by decide) (by decide) rfl rfl (by decide)⟩

/-- C10: only exceptions while issuing the request are converted into the
connect envelope; a response outside the 4xx/5xx raising range whose body
is not valid JSON makes `res.json()` raise, and that exception propagates
out of `do_call` and out of `call` unconverted. -/
theorem json_error_propagates (c : Consts) (s : Nat) (eps : List String) (o : CallOracle)
    (st : HelperState)
    (hs : ¬(400 ≤ s ∧ s < 600)) (hurl : urlTruthy st = true)
    (hfirst : o.first = .resp s none) :
    do_call c (.resp s none) = .jsonExn ∧
    call c eps o st = (.error .jsonError, st, [Event.callReq]) := by
  have h1 : do_call c (.resp s none) = .jsonExn := by
    simp only [do_call, if_neg hs]
  refine ⟨h1, ?_⟩
  have hp : callPhase1 c o st = (.error .jsonError, sessionToken st, [.callReq]) := by
    simp [callPhase1, hurl, hfirst, h1]
  simp only [call, hp]

/-- Witness for `json_error_propagates`: a 200 response with an unparsable
body. -/
theorem json_error_propagates_witness :
    (¬(400 ≤ 200 ∧ 200 < 600) ∧ urlTruthy stSample = true) ∧
    (do_call cSample (.resp 200 none) = .jsonExn ∧
     call cSample ["https://a"] { oracleSample with first := .resp 200 none } stSample =
       (.error .jsonError, stSample, [Event.callReq])) :=
  ⟨by decide,
   json_error_propagates cSample 200 ["https://a"]
     { oracleSample with first := .resp 200 none } stSample (by decide) rfl rfl⟩

/-- C1: when the first transport result of `call` carries a
re-login-required code, a successful relogin leads to exactly one retry of
the request, on which a `RELOGIN_ERROR_PASS` code is normalized to 0, a
code 0 is returned as success, and any other code is returned as the final
result with no further retry; a failed relogin makes `call` return the
original error envelope unchanged with no retry. -/
theorem call_relogin_protocol (c : Consts) (eps : List String) (o : CallOracle)
    (st : HelperState) (r : Envelope)
    (hurl : urlTruthy st = true)
    (hfirst : do_call c o.first = .envelope r)
    (hcode : r.error.code ∈ c.RELOGIN_ERROR_CODE) :
    ((relogin c o.loginResp o.loginLogoutOut o.reloginLogoutOut eps
        (sessionToken st) st).1 = true →
      ∀ r2 : Envelope, do_call c o.retry = .envelope r2 →
        (call c eps o st).2.2.count Event.callReq = 2 ∧
        (r2.error.code = c.RELOGIN_ERROR_PASS →
          (call c eps o st).1 = .ok (setCode r2 0)) ∧
        (r2.error.code = 0 → (call c eps o st).1 = .ok r2) ∧
        (r2.error.code ≠ c.RELOGIN_ERROR_PASS → r2.error.code ≠ 0 →
          (call c eps o st).1 = .ok r2)) ∧
    ((relogin c o.loginResp o.loginLogoutOut o.reloginLogoutOut eps
        (sessionToken st) st).1 = false →
      (call c eps o st).1 = .ok r ∧
      (call c eps o st).2.2.count Event.callReq = 1) := by
  have hp : callPhase1 c o st = (.ok r, sessionToken st, [.callReq]) := by
    simp [callPhase1, hurl, hfirst]
  have hnc : Event.callReq ∉
      (relogin c o.loginResp o.loginLogoutOut o.reloginLogoutOut eps
        (sessionToken st) st).2.2 :=
    callReq_not_mem_relogin c o.loginResp o.loginLogoutOut o.reloginLogoutOut eps
      (sessionToken st) st
  constructor
  · intro hok r2 hr2
    have hcall : call c eps o st =
        ((if r2.error.code = c.RELOGIN_ERROR_PASS then Except.ok (setCode r2 0)
          else Except.ok r2),
         (relogin c o.loginResp o.loginLogoutOut o.reloginLogoutOut eps
            (sessionToken st) st).2.1,
         [Event.callReq] ++
           (relogin c o.loginResp o.loginLogoutOut o.reloginLogoutOut eps
              (sessionToken st) st).2.2 ++ [Event.callReq]) := by
      simp only [call, hp]
      rw [if_pos hcode]
      simp only [hok, if_true, hr2]
      by_cases hpass : r2.error.code = c.RELOGIN_ERROR_PASS <;> simp [hpass]
    refine ⟨?_, ?_, ?_, ?_⟩
    · rw [hcall]
      dsimp only
      rw [List.count_append, List.count_append, List.count_eq_zero.mpr hnc]
      decide
    · intro hpass; rw [hcall]; simp [hpass]
    · intro h0
      rw [hcall]
      by_cases hpass : r2.error.code = c.RELOGIN_ERROR_PASS
      · rw [if_pos hpass]
        obtain ⟨⟨cd, ds⟩, da⟩ := r2
        dsimp only at h0
        subst h0
        rfl
      · rw [if_neg hpass]
    · intro hpass _; rw [hcall]; simp [hpass]
  · intro hfail
    have hcall : call c eps o st =
        (.ok r,
         (relogin c o.loginResp o.loginLogoutOut o.reloginLogoutOut eps
            (sessionToken st) st).2.1,
         [Event.callReq] ++
           (relogin c o.loginResp o.loginLogoutOut o.reloginLogoutOut eps
              (sessionToken st) st).2.2) := by
      simp only [call, hp]
      rw [if_pos hcode]
      simp only [hfail]
      simp
    constructor
    · rw [hcall]
    · rw [hcall]
      dsimp only
      rw [List.count_append, List.count_eq_zero.mpr hnc]
      decide

/-- Witness for `call_relogin_protocol`: a logged-in state whose first
result carries a relogin code, a succeeding relogin and a clean retry. -/
theorem call_relogin_protocol_witness :
    (urlTruthy stSample = true) ∧
    (do_call cSample oracleSample.first = .envelope reloginErrEnvSample) ∧
    (reloginErrEnvSample.error.code ∈ cSample.RELOGIN_ERROR_CODE) ∧
    (call cSample ["https://a"] oracleSample stSample).1 = .ok okEnvSample ∧
    (call cSample ["https://a"] oracleSample stSample).2.2.count Event.callReq = 2 := by
  have h := call_relogin_protocol cSample ["https://a"] oracleSample stSample
    reloginErrEnvSample rfl rfl (by decide)
  have hb := h.1 (by decide) okEnvSample rfl
  exact ⟨rfl, rfl, by decide, hb.2.2.1 rfl, hb.1⟩

theorem logout_trace_truthy (c : Consts) (out : HttpOutcome) (st : HelperState)
    (h : urlTruthy st = true) : (logout c out st).2.2 = [Event.logoutReq] := by
  unfold logout
  simp only [h, if_true]
  cases hd : do_call c out with
  | jsonExn => rfl
  | envelope r => by_cases h0 : r.error.code ≠ 0 <;> simp [h0]

/-- C5: `login` iterates the endpoint list in order; each failing endpoint
is logged and skipped, the first endpoint answering code 0 determines the
new base URL (endpoint concatenated with the returned device id) and the
stored token, and no further endpoint is contacted; if every endpoint
fails, `login` raises the fatal "All url login fail." error. -/
theorem login_endpoint_iteration (c : Consts) (resp : String → HttpOutcome) (lo : HttpOutcome)
    (pre rest : List String) (ep : String) (st : HelperState) (r : Envelope) (dv : String)
    (hpre : ∀ e ∈ pre, isFailEnvelope (do_call c (resp e)))
    (hr : do_call c (resp ep) = .envelope r) (h0 : r.error.code = 0)
    (hd : (r.data.bind fun d => d.deviceid) = some dv)
    (hex : accountExpired c r = false) :
    login c resp lo (pre ++ ep :: rest) st =
      (.ok (), postLoginState ep dv r, (pre ++ [ep]).map Event.loginReq) ∧
    (postLoginState ep dv r).url = some (ep ++ dv) ∧
    sessionToken (postLoginState ep dv r) = r.data.bind (fun d => d.iBaseToken) ∧
    ∀ (eps : List String) (st' : HelperState),
      (∀ e ∈ eps, isFailEnvelope (do_call c (resp e))) →
      (login c resp lo eps st').1 = .error (.backend "All url login fail.") ∧
      (login c resp lo eps st').2.2 = eps.map Event.loginReq := by
  refine ⟨?_, rfl, rfl, ?_⟩
  · unfold login
    rw [loginLoop_skip_failures c resp lo pre (ep :: rest) st hpre,
        loginLoop_success c resp lo ep rest _ r dv hr h0 hd hex]
    simp
  · intro eps st' h
    unfold login
    rw [loginLoop_all_fail c resp lo eps st' h]
    exact ⟨rfl, rfl⟩

/-- Witness for `login_endpoint_iteration` on the spec's example: endpoints
A and B fail, C succeeds, and the base URL is derived from C. -/
theorem login_endpoint_iteration_witness :
    (∀ e ∈ ["A", "B"], isFailEnvelope (do_call cSample
      ((fun e => if e = "C" then HttpOutcome.resp 200 (some loginOkEnvSample)
                 else HttpOutcome.resp 200 (some failEnvSample)) e))) ∧
    (do_call cSample (if ("C" : String) = "C" then HttpOutcome.resp 200 (some loginOkEnvSample)
        else HttpOutcome.resp 200 (some failEnvSample)) = .envelope loginOkEnvSample) ∧
    login cSample
        (fun e => if e = "C" then HttpOutcome.resp 200 (some loginOkEnvSample)
                  else HttpOutcome.resp 200 (some failEnvSample))
        (.resp 200 (some okEnvSample)) (["A", "B"] ++ "C" :: []) initState =
      (.ok (), postLoginState "C" "/dev1" loginOkEnvSample,
       (["A", "B"] ++ ["C"]).map Event.loginReq) := by
  refine ⟨by decide, by decide, ?_⟩
  exact (login_endpoint_iteration cSample
    (fun e => if e = "C" then HttpOutcome.resp 200 (some loginOkEnvSample)
              else HttpOutcome.resp 200 (some failEnvSample))
    (.resp 200 (some okEnvSample)) ["A", "B"] [] "C" initState loginOkEnvSample "/dev1"
    (by decide) (by decide) rfl rfl rfl).1

/-- C6: a login attempt that succeeds with code 0 but reports the account
password state as expired or initial logs the session out (issuing the
session delete) and raises a fatal error: no further endpoint is tried and
no success is returned. -/
theorem login_expired_password_fatal (c : Consts) (resp : String → HttpOutcome) (lo : HttpOutcome)
    (pre rest : List String) (ep : String) (st : HelperState) (r : Envelope) (dv : String)
    (hpre : ∀ e ∈ pre, isFailEnvelope (do_call c (resp e)))
    (hr : do_call c (resp ep) = .envelope r) (h0 : r.error.code = 0)
    (hd : (r.data.bind fun d => d.deviceid) = some dv)
    (hex : accountExpired c r = true)
    (hne : (ep ++ dv) ≠ "") :
    (∃ e, (login c resp lo (pre ++ ep :: rest) st).1 = .error e) ∧
    (∀ u, (login c resp lo (pre ++ ep :: rest) st).1 ≠ .ok u) ∧
    (login c resp lo (pre ++ ep :: rest) st).2.2 =
      pre.map Event.loginReq ++ [Event.loginReq ep, Event.logoutReq] := by
  have hurl2 : urlTruthy (postLoginState ep dv r) = true := by
    simp [urlTruthy, postLoginState, hne]
  have hlo : (logout c lo (postLoginState ep dv r)).2.2 = [Event.logoutReq] :=
    logout_trace_truthy c lo (postLoginState ep dv r) hurl2
  obtain ⟨hfatal, htrace⟩ :=
    loginLoop_expired c resp lo ep rest (failState pre st) r dv hr h0 hd hex
  unfold login
  rw [loginLoop_skip_failures c resp lo pre (ep :: rest) st hpre]
  refine ⟨?_, ?_, ?_⟩
  · obtain ⟨e, he⟩ := hfatal
    exact ⟨e, he⟩
  · intro u hu
    obtain ⟨e, he⟩ := hfatal
    rw [show ((loginLoop c resp lo (ep :: rest) (failState pre st)).1,
          (loginLoop c resp lo (ep :: rest) (failState pre st)).2.1,
          pre.map Event.loginReq ++
            (loginLoop c resp lo (ep :: rest) (failState pre st)).2.2).1 =
        (loginLoop c resp lo (ep :: rest) (failState pre st)).1 from rfl, he] at hu
    exact Except.noConfusion hu
  · rw [show ((loginLoop c resp lo (ep :: rest) (failState pre st)).1,
          (loginLoop c resp lo (ep :: rest) (failState pre st)).2.1,
          pre.map Event.loginReq ++
            (loginLoop c resp lo (ep :: rest) (failState pre st)).2.2).2.2 =
        pre.map Event.loginReq ++
          (loginLoop c resp lo (ep :: rest) (failState pre st)).2.2 from rfl,
       htrace, hlo]

/-- Witness for `login_expired_password_fatal`: one endpoint answering a
successful login with an expired account state. -/
theorem login_expired_password_fatal_witness :
    (accountExpired cSample loginExpiredEnvSample = true) ∧
    (∀ u, (login cSample (fun _ => .resp 200 (some loginExpiredEnvSample))
        (.resp 200 (some okEnvSample)) ([] ++ "https://a" :: []) initState).1 ≠ .ok u) ∧
    (login cSample (fun _ => .resp 200 (some loginExpiredEnvSample))
        (.resp 200 (some okEnvSample)) ([] ++ "https://a" :: []) initState).2.2 =
      [Event.loginReq "https://a", Event.logoutReq] := by
  have h := login_expired_password_fatal cSample
    (fun _ => .resp 200 (some loginExpiredEnvSample)) (.resp 200 (some okEnvSample))
    [] [] "https://a" initState loginExpiredEnvSample "/dev1"
    (by decide) rfl rfl rfl rfl (by decide)
  exact ⟨rfl, h.2.1, h.2.2⟩

/-- C3 counterexample: a login attempt in which the only endpoint fails
leaves the Session holding that endpoint as base URL and no token, so the
both-present-or-both-absent invariant does not hold after the failed
login. -/
theorem login_all_fail_keeps_url :
    (login cSample (fun _ => .resp 200 (some failEnvSample)) (.resp 200 (some okEnvSample))
        ["https://a"] initState).2.1 =
      { url := some "https://a", session := some { iBaseToken := none } } ∧
    ¬ sessionInvariant
        (login cSample (fun _ => .resp 200 (some failEnvSample)) (.resp 200 (some okEnvSample))
          ["https://a"] initState).2.1 := by
  exact ⟨rfl, by decide⟩

/-- C3 amended: the invariant (base URL and token both present or both
absent) holds after construction and after `init_http_head`, and `logout`
never changes the session state; but it does not hold after every
operation: a login attempt in which every endpoint failed leaves the base
URL equal to the last attempted endpoint with no token, violating the
invariant. -/
theorem session_invariant_status (c : Consts) (resp : String → HttpOutcome)
    (lo : HttpOutcome) (eps : List String) (st : HelperState)
    (hfail : ∀ e ∈ eps, isFailEnvelope (do_call c (resp e))) (hne : eps ≠ []) :
    sessionInvariant initState ∧
    sessionInvariant init_http_head ∧
    (∀ (out : HttpOutcome) (st' : HelperState), (logout c out st').2.1 = st') ∧
    (login c resp lo eps st).2.1.url = eps.getLast? ∧
    sessionToken (login c resp lo eps st).2.1 = none ∧
    ¬ sessionInvariant (login c resp lo eps st).2.1 := by
  have hall := loginLoop_all_fail c resp lo eps st hfail
  have hfs := failState_url eps st hne
  have hurl : (login c resp lo eps st).2.1.url = eps.getLast? := by
    unfold login
    rw [hall]
    exact hfs.1
  have htok : sessionToken (login c resp lo eps st).2.1 = none := by
    unfold login
    rw [hall]
    exact hfs.2
  refine ⟨rfl, rfl, fun out st' => logout_state_eq c out st', hurl, htok, ?_⟩
  intro hinv
  unfold sessionInvariant at hinv
  rw [htok, hurl] at hinv
  rw [Option.isSome_none, List.getLast?_isSome.mpr hne] at hinv
  exact Bool.noConfusion hinv

/-- Witness for `session_invariant_status` with one failing endpoint. -/
theorem session_invariant_status_witness :
    (∀ e ∈ ["https://a"], isFailEnvelope (do_call cSample
      ((fun _ => HttpOutcome.resp 200 (some failEnvSample)) e))) ∧
    (["https://a"] ≠ ([] : List String)) ∧
    ¬ sessionInvariant (login cSample (fun _ => .resp 200 (some failEnvSample))
        (.resp 200 (some okEnvSample)) ["https://a"] initState).2.1 := by
  refine ⟨by decide, by decide, ?_⟩
  exact (session_invariant_status cSample (fun _ => .resp 200 (some failEnvSample))
    (.resp 200 (some okEnvSample)) ["https://a"] initState (by decide) (by decide)).2.2.2.2.2

/-- C9: with page size 100, the pager fetches the successive windows
`[0,100)`, `[100,200)`, `[200,300)` of a 250-item dataset — exactly 3
fetches returning 100, 100 and 50 items — and returns all 250 items
concatenated in fetch order; in general it stops as soon as a page holds
fewer than the page size. -/
theorem pager_windows {α : Type u} (c : Consts) (d : List α)
    (hc : c.MAX_QUERY_COUNT = 100) (hd : d.length = 250) :
    pagerLoop 100 (pageFuncOf d) 3 0 =
      some [(0, 100, d.take 100), (100, 200, (d.drop 100).take 100),
            (200, 300, d.drop 200)] ∧
    [(d.take 100).length, ((d.drop 100).take 100).length, (d.drop 200).length] =
      [100, 100, 50] ∧
    get_info_by_range c (pageFuncOf d) 3 = some d ∧
    (∀ (func : Nat → Nat → List α) (start fuel : Nat),
      (func start (start + 100)).length < 100 →
      pagerLoop 100 func (fuel + 1) start =
        some [(start, start + 100, func start (start + 100))]) := by
  have l1 : (d.take 100).length = 100 := by simp [List.length_take, hd]
  have l2 : ((d.drop 100).take 100).length = 100 := by
    simp [List.length_take, List.length_drop, hd]
  have l3 : (d.drop 200).length = 50 := by simp [List.length_drop, hd]
  have e3 : (d.drop 200).take 100 = d.drop 200 :=
    List.take_of_length_le (by rw [l3]; omega)
  have f1 : pageFuncOf d 0 (0 + 100) = d.take 100 := by simp [pageFuncOf]
  have f2 : pageFuncOf d 100 (100 + 100) = (d.drop 100).take 100 := by
    simp [pageFuncOf]
  have f3 : pageFuncOf d 200 (200 + 100) = d.drop 200 := by simp [pageFuncOf, e3]
  have p3 : pagerLoop 100 (pageFuncOf d) 1 200 = some [(200, 300, d.drop 200)] := by
    show pagerLoop 100 (pageFuncOf d) (0 + 1) 200 = _
    rw [pagerLoop_succ, f3, if_pos (by rw [l3]; omega)]
  have p2 : pagerLoop 100 (pageFuncOf d) 2 100 =
      some [(100, 200, (d.drop 100).take 100), (200, 300, d.drop 200)] := by
    show pagerLoop 100 (pageFuncOf d) (1 + 1) 100 = _
    rw [pagerLoop_succ, f2, if_neg (by rw [l2]; omega),
        show (100 : Nat) + 100 = 200 from rfl, p3]
  have p1 : pagerLoop 100 (pageFuncOf d) 3 0 =
      some [(0, 100, d.take 100), (100, 200, (d.drop 100).take 100),
            (200, 300, d.drop 200)] := by
    show pagerLoop 100 (pageFuncOf d) (2 + 1) 0 = _
    rw [pagerLoop_succ, f1, if_neg (by rw [l1]; omega),
        show (0 : Nat) + 100 = 100 from rfl, p2]
  refine ⟨p1, by rw [l1, l2, l3], ?_, ?_⟩
  · unfold get_info_by_range
    rw [hc, p1]
    refine congrArg some ?_
    show d.take 100 ++ ((d.drop 100).take 100 ++ (d.drop 200 ++ [])) = d
    rw [List.append_nil, ← List.append_assoc, ← List.take_add,
        show (100 : Nat) + 100 = 200 from rfl]
    exact List.take_append_drop 200 d
  · intro func start fuel h
    rw [pagerLoop_succ, if_pos h]

/-- Witness for `pager_windows` on the dataset `0, ..., 249`. -/
theorem pager_windows_witness :
    (cSample.MAX_QUERY_COUNT = 100) ∧
    ((List.range 250).length = 250) ∧
    get_info_by_range cSample (pageFuncOf (List.range 250)) 3 = some (List.range 250) := by
  refine ⟨rfl, by simp, ?_⟩
  exact (pager_windows cSample (List.range 250) rfl (by simp)).2.2.1

end HuaweiRest
